import Mathlib

/-!
Shallow embedding of the redpanda cluster reconciliation controller
(`src/go/k8s/controllers/redpanda/cluster_controller.go`) and proofs about it.

Modelling conventions:
* Go `*int32` fields (replica counts) are modelled as `Option Int`: `none` is the
  nil pointer, `some v` a pointer to `v`.  Go compares pointers by address; two
  pointers decoded by separate client reads (or a nil zero value against a decoded
  pointer) are equal iff both are nil, which `goPtrNe` captures.
* Kubernetes quantities (`resource.Quantity`) are modelled by their string form,
  which is all the controller ever consumes (`memory.String()`).
* The YAML document and shell script stored in the bootstrap ConfigMap are
  modelled structurally: the ConfigMap carries the structured engine config and
  the parameters baked into the script text, and `scriptEffect` is the effect of
  running the script for a given pod hostname.
* Remote calls are modelled by an explicit `Store` (the control plane's state for
  one cluster, keyed by the derived resource names) plus a `Faults` record that
  injects the non-not-found errors a real client can return.  A reconcile
  invocation returns the final store, the ordered list of mutation calls it
  attempted, and an optional error.
-/

namespace RedpandaOperator

/-- A host/port pair (rpk `config.SocketAddress`). -/
structure SocketAddr where
  address : String
  port : Int
  deriving DecidableEq, Repr

/-- One seed-server entry (rpk `config.SeedServer`). -/
structure SeedServer where
  host : SocketAddr
  deriving DecidableEq, Repr

/-- The `redpanda` section of the engine configuration (rpk `config.RedpandaConfig`). -/
structure EngineConfig where
  id : Int
  directory : String
  rpcServer : SocketAddr
  advertisedRpcApi : SocketAddr
  kafkaApi : SocketAddr
  advertisedKafkaApi : SocketAddr
  adminApi : SocketAddr
  seedServers : List SeedServer
  developerMode : Bool
  deriving DecidableEq, Repr

/-- A port declaration in the cluster custom resource (the CRD's socket-address
fields; only the port is read by the controller). -/
structure PortSpec where
  port : Int
  deriving DecidableEq, Repr

/-- The cluster custom resource's `Spec.Configuration`
(`redpandav1alpha1.RedpandaConfig`): the fields the controller reads. -/
structure RedpandaSpecConfig where
  rpcServer : PortSpec
  kafkaApi : PortSpec
  adminApi : PortSpec
  developerMode : Bool
  deriving DecidableEq, Repr

/-- Translation of `copyConfig` (cluster_controller.go lines 303-338): build the
engine config section from the cluster spec, substituting the compiled-in default
for each port that the spec leaves at zero.  Exactly as in the source, the
compiled-in defaults (`config.Default()`, which lives in the rpk package outside
this repository) are received as the `cfgDefaults` argument.  Fields the Go
struct literal does not mention are the Go zero values. -/
def copyConfig (c : RedpandaSpecConfig) (cfgDefaults : EngineConfig) : EngineConfig :=
  let rpcServerPort := if c.rpcServer.port = 0 then cfgDefaults.rpcServer.port else c.rpcServer.port
  let kafkaAPIPort := if c.kafkaApi.port = 0 then cfgDefaults.kafkaApi.port else c.kafkaApi.port
  let adminAPIPort := if c.adminApi.port = 0 then cfgDefaults.adminApi.port else c.adminApi.port
  { id := 0
    directory := ""
    rpcServer := { address := "0.0.0.0", port := rpcServerPort }
    advertisedRpcApi := { address := "", port := 0 }
    kafkaApi := { address := "0.0.0.0", port := kafkaAPIPort }
    advertisedKafkaApi := { address := "", port := 0 }
    adminApi := { address := "0.0.0.0", port := adminAPIPort }
    seedServers := []
    developerMode := c.developerMode }

/-- The cluster custom resource as fetched from the control plane: spec fields the
controller reads plus the status sub-resource it writes.  `replicas` is the Go
`*int32` field `Spec.Replicas`; `statusNodes` is the nil-able `[]string`
`Status.Nodes` (`none` = nil slice). -/
structure ClusterResource where
  name : String
  ns : String
  labels : List (String × String)
  replicas : Option Int
  image : String
  version : String
  configuration : RedpandaSpecConfig
  resourceLimits : List (String × String)
  resourceRequests : List (String × String)
  statusNodes : Option (List String)
  statusReplicas : Int
  deriving DecidableEq, Repr

/-- Constant `dataDirectory` from the controller. -/
def dataDirectory : String := "/var/lib/redpanda/data"

/-- Constant `baseSuffix` from the controller. -/
def baseSuffix : String := "-base"

/-- The headless-service DNS zone for the cluster
(`cluster.Name + "." + cluster.Namespace + ".svc.cluster.local"`). -/
def serviceAddress (cl : ClusterResource) : String :=
  cl.name ++ "." ++ cl.ns ++ ".svc.cluster.local"

/-- The engine configuration written into the bootstrap ConfigMap
(`createBootstrapConfigMap`, lines 245-260): start from `copyConfig` applied to
the spec and the compiled-in defaults `d`, then set node id 0, mirror the listen
ports into the advertised ports, fix the data directory, and point the single
seed-server entry at ordinal 0's DNS name and the RPC port. -/
def bootstrapEngineConfig (d : EngineConfig) (cl : ClusterResource) : EngineConfig :=
  let c0 := copyConfig cl.configuration d
  let c1 := { c0 with id := 0 }
  let c2 := { c1 with advertisedKafkaApi := { c1.advertisedKafkaApi with port := c1.kafkaApi.port } }
  let c3 := { c2 with advertisedRpcApi := { c2.advertisedRpcApi with port := c2.rpcServer.port } }
  let c4 := { c3 with directory := dataDirectory }
  { c4 with
    seedServers := [ { host := { address := cl.name ++ "-0." ++ serviceAddress cl
                                 port := c4.advertisedRpcApi.port } } ] }

/-- The bootstrap ConfigMap resource: metadata plus the structured content of
`redpanda.yaml` and the parameters baked into the `configurator.sh` script text
(the service DNS zone and the advertised ports interpolated at lines 271-280). -/
structure ConfigMapResource where
  name : String
  ns : String
  labels : List (String × String)
  cfg : EngineConfig
  scriptServiceAddress : String
  scriptAdvertisedRpcPort : Int
  scriptAdvertisedKafkaPort : Int
  deriving DecidableEq, Repr

/-- Translation of `createBootstrapConfigMap`'s synthesized object (lines 240-301),
with the compiled-in engine defaults `d` threaded in for `config.Default()`. -/
def bootstrapConfigMap (d : EngineConfig) (cl : ClusterResource) : ConfigMapResource :=
  let cfg := bootstrapEngineConfig d cl
  { name := cl.name ++ baseSuffix
    ns := cl.ns
    labels := cl.labels
    cfg := cfg
    scriptServiceAddress := serviceAddress cl
    scriptAdvertisedRpcPort := cfg.advertisedRpcApi.port
    scriptAdvertisedKafkaPort := cfg.advertisedKafkaApi.port }

/-- Loop of `goReplaceAll`, structurally recursive on a fuel bounded by the
length of the subject: replace non-overlapping occurrences of `pat`, scanning
left to right. -/
def replaceAllLoop : Nat → List Char → List Char → List Char → List Char
  | 0, _, _, s => s
  | fuel + 1, pat, rep, s =>
    match s with
    | [] => []
    | ch :: rest =>
      if pat.isPrefixOf s && !pat.isEmpty then
        rep ++ replaceAllLoop fuel pat rep (s.drop pat.length)
      else ch :: replaceAllLoop fuel pat rep rest

/-- Go's `strings.ReplaceAll s pat rep` for a non-empty pattern: every
non-overlapping occurrence of `pat` in `s`, scanned left to right, is replaced
by `rep`. -/
def goReplaceAll (s pat rep : String) : String :=
  String.mk (replaceAllLoop s.data.length pat.data rep.data s.data)

/-- Digit value of a character, if it is a decimal digit. -/
def charDigit? (c : Char) : Option Nat :=
  let n := c.toNat
  if 48 ≤ n ∧ n ≤ 57 then some (n - 48) else none

/-- Accumulating loop of `parseNat?`. -/
def parseNatLoop : List Char → Option Nat → Option Nat
  | [], acc => acc
  | c :: cs, acc =>
    match charDigit? c with
    | none => none
    | some d => parseNatLoop cs (some (acc.getD 0 * 10 + d))

/-- Parse of a non-empty all-digit decimal string, `none` otherwise: the value
`rpk config set redpanda.node_id` accepts for the node id. -/
def parseNat? (s : String) : Option Nat :=
  parseNatLoop s.data none

/-- The shell expansion `${HOSTNAME##*-}`: the suffix of the hostname after the
last dash, or the whole hostname when it contains no dash. -/
def lastDashSuffix (s : String) : String :=
  String.mk (((s.data.reverse).takeWhile (fun ch => ch ≠ '-')).reverse)

/-- Effect of running the generated `configurator.sh` for a pod with the given
hostname (script text at lines 267-281): copy the base config, set
`redpanda.node_id` to the ordinal parsed off the hostname, clear
`redpanda.seed_servers` exactly when the ordinal string is `"0"`, and overwrite
the advertised RPC/kafka addresses with this pod's DNS name and the ports baked
into the script.  The script runs under `set -xe`, so a step failure (an ordinal
that does not parse as a node id) aborts the container: modelled as `none`. -/
def scriptEffect (cm : ConfigMapResource) (hostname : String) : Option EngineConfig :=
  let ordinal := lastDashSuffix hostname
  let serviceName := hostname ++ "." ++ cm.scriptServiceAddress
  match parseNat? ordinal with
  | none => none
  | some nid =>
    let c1 := { cm.cfg with id := (nid : Int) }
    let c2 := if ordinal = "0" then { c1 with seedServers := [] } else c1
    let c3 := { c2 with advertisedRpcApi := { address := serviceName, port := cm.scriptAdvertisedRpcPort } }
    some { c3 with advertisedKafkaApi := { address := serviceName, port := cm.scriptAdvertisedKafkaPort } }

/-- The headless service resource synthesized for the cluster. -/
structure ServiceResource where
  name : String
  ns : String
  labels : List (String × String)
  headless : Bool
  portName : String
  port : Int
  selector : List (String × String)
  deriving DecidableEq, Repr

/-- Translation of `createHeadlessService`'s synthesized object (lines 207-238):
same name and namespace as the cluster, no cluster IP, one port carrying the raw
kafka port from the spec, selecting pods by the cluster's labels. -/
def headlessService (cl : ClusterResource) : ServiceResource :=
  { name := cl.name
    ns := cl.ns
    labels := cl.labels
    headless := true
    portName := "kafka-tcp"
    port := cl.configuration.kafkaApi.port
    selector := cl.labels }

/-- One volume of the synthesized pod template. -/
structure VolumeSpec where
  name : String
  claimName : Option String
  configMapName : Option String
  configMapDefaultMode : Option Int
  emptyDir : Bool
  deriving DecidableEq, Repr

/-- The StatefulSet resource synthesized for the cluster: the fields of the Go
object literal in `createBootstrapStatefulSet` that the spec's claims are about,
kept structurally close to the source. -/
structure StatefulSetResource where
  name : String
  ns : String
  labels : List (String × String)
  replicas : Option Int
  podManagementParallel : Bool
  rollingUpdate : Bool
  serviceName : String
  fsGroup : Int
  volumes : List VolumeSpec
  initContainerName : String
  initContainerImage : String
  initCommand : List String
  initArgs : List String
  containerName : String
  containerImage : String
  containerArgs : List String
  portAdmin : Int
  portKafka : Int
  portRpc : Int
  resourceLimits : List (String × String)
  resourceRequests : List (String × String)
  pvcName : String
  pvcAccessModes : List String
  pvcStorageRequest : String
  deriving DecidableEq, Repr

/-- The memory limit quantity used for the engine's memory flag (lines 350-353):
the `"memory"` entry of the spec's resource limits, or `2Gi` when absent.
Quantities are modelled by their string form. -/
def memoryLimitString (limits : List (String × String)) : String :=
  match limits.lookup "memory" with
  | some q => q
  | none => "2Gi"

/-- The main container's argument list (lines 428-436); the memory flag is the
memory limit's string form with `Gi` replaced by `G`. -/
def redpandaArgs (limits : List (String × String)) : List String :=
  [ "--check=false",
    "--smp 1",
    "--memory " ++ goReplaceAll (memoryLimitString limits) "Gi" "G",
    "start",
    "--",
    "--default-log-level=debug",
    "--reserve-memory 0M" ]

/-- Constant `configuratorPath` from the controller
(`/mnt/operator/configurator.sh`). -/
def configuratorPath : String := "/mnt/operator/configurator.sh"

/-- Translation of `createBootstrapStatefulSet`'s synthesized object
(lines 341-523). -/
def createBootstrapStatefulSet (cl : ClusterResource) (configMapName : String) :
    StatefulSetResource :=
  { name := cl.name
    ns := cl.ns
    labels := cl.labels
    replicas := some 1
    podManagementParallel := true
    rollingUpdate := true
    serviceName := cl.name
    fsGroup := 101
    volumes :=
      [ { name := "datadir", claimName := some "datadir", configMapName := none,
          configMapDefaultMode := none, emptyDir := false },
        { name := "configmap-dir", claimName := none, configMapName := some configMapName,
          configMapDefaultMode := some 0o754, emptyDir := false },
        { name := "config-dir", claimName := none, configMapName := none,
          configMapDefaultMode := none, emptyDir := true } ]
    initContainerName := "redpanda-configurator"
    initContainerImage := cl.image ++ ":" ++ cl.version
    initCommand := ["/bin/sh", "-c"]
    initArgs := [configuratorPath]
    containerName := "redpanda"
    containerImage := cl.image ++ ":" ++ cl.version
    containerArgs := redpandaArgs cl.resourceLimits
    portAdmin := cl.configuration.adminApi.port
    portKafka := cl.configuration.kafkaApi.port
    portRpc := cl.configuration.rpcServer.port
    resourceLimits := cl.resourceLimits
    resourceRequests := cl.resourceRequests
    pvcName := "datadir"
    pvcAccessModes := ["ReadWriteOnce"]
    pvcStorageRequest := "100Gi" }

/-- A StatefulSet as stored on the control plane: the synthesized object plus the
ready-replica count maintained by the StatefulSet's own controller. -/
structure StoredStatefulSet where
  sts : StatefulSetResource
  readyReplicas : Int
  deriving DecidableEq, Repr

/-- The control plane's state for one cluster, keyed by the derived resource
names; `pods` is the ordered name list that a label-selector pod list returns. -/
structure Store where
  cluster : Option ClusterResource
  service : Option ServiceResource
  configMap : Option ConfigMapResource
  statefulSet : Option StoredStatefulSet
  pods : List String
  deriving DecidableEq, Repr

/-- Injected client errors: `some e` makes the corresponding remote call fail
with the (non-not-found) error `e`. -/
structure Faults where
  getClusterErr : Option String
  getServiceErr : Option String
  createServiceErr : Option String
  getConfigMapErr : Option String
  createConfigMapErr : Option String
  getStsErr : Option String
  createStsErr : Option String
  updateStsErr : Option String
  listPodsErr : Option String
  statusNodesErr : Option String
  statusReplicasErr : Option String
  deriving DecidableEq, Repr

/-- The fault record of a healthy control plane: no injected errors. -/
def noFaults : Faults :=
  { getClusterErr := none, getServiceErr := none, createServiceErr := none
    getConfigMapErr := none, createConfigMapErr := none, getStsErr := none
    createStsErr := none, updateStsErr := none, listPodsErr := none
    statusNodesErr := none, statusReplicasErr := none }

/-- Result of a fetch: the decoded object, a not-found signal, or another error. -/
inductive GetOutcome (α : Type) where
  | found (a : α)
  | notFound
  | errOther (e : String)
  deriving DecidableEq, Repr

/-- One mutation call attempted against the control plane, in order. -/
inductive Call where
  | createService (svc : ServiceResource)
  | createConfigMap (cm : ConfigMapResource)
  | createStatefulSet (sts : StatefulSetResource)
  | updateStatefulSet (name : String) (ns : String) (replicas : Option Int)
  | updateStatus (nodes : Option (List String)) (replicas : Int)
  deriving DecidableEq, Repr

/-- Result of (part of) a reconcile invocation: the control plane's state
afterwards, the mutation calls attempted (in order), and the error returned, if
any. -/
structure Outcome where
  store : Store
  calls : List Call
  err : Option String
  deriving DecidableEq, Repr

/-- Go pointer inequality between two `*int32` values that were decoded by
separate client reads (or are nil zero values): decoding allocates, so the
pointers are equal exactly when both are nil.  This is the comparison
`sts.Spec.Replicas != redpandaCluster.Spec.Replicas` at line 160. -/
def goPtrNe (a b : Option Int) : Bool :=
  !(a.isNone && b.isNone)

/-- The local `sts` variable of `Reconcile`: the fields of the fetched (or
zero-valued) StatefulSet that the remainder of the invocation reads. -/
structure StsLocal where
  name : String
  ns : String
  specReplicas : Option Int
  readyReplicas : Int
  deriving DecidableEq, Repr

/-- The zero value `var sts appsv1.StatefulSet` left untouched when the fetch
returns not-found. -/
def zeroStsLocal : StsLocal :=
  { name := "", ns := "", specReplicas := none, readyReplicas := 0 }

/-- Fetch of the cluster resource by the request's key (line 90). -/
def getCluster (f : Faults) (s : Store) : GetOutcome ClusterResource :=
  match f.getClusterErr with
  | some e => .errOther e
  | none =>
    match s.cluster with
    | some c => .found c
    | none => .notFound

/-- Fetch of the headless service by the cluster's name (line 100). -/
def getService (f : Faults) (s : Store) : GetOutcome ServiceResource :=
  match f.getServiceErr with
  | some e => .errOther e
  | none =>
    match s.service with
    | some v => .found v
    | none => .notFound

/-- Fetch of the base ConfigMap by the cluster's name plus `-base` (line 120). -/
def getConfigMap (f : Faults) (s : Store) : GetOutcome ConfigMapResource :=
  match f.getConfigMapErr with
  | some e => .errOther e
  | none =>
    match s.configMap with
    | some v => .found v
    | none => .notFound

/-- Fetch of the StatefulSet by the cluster's name (line 141). -/
def getStatefulSet (f : Faults) (s : Store) : GetOutcome StoredStatefulSet :=
  match f.getStsErr with
  | some e => .errOther e
  | none =>
    match s.statefulSet with
    | some v => .found v
    | none => .notFound

/-- Error string for an update whose target does not exist on the control plane
(in particular an update of an object with an empty name). -/
def updateTargetMissing : String := "statefulset update target not found"

/-- Lines 98-116: fetch the headless service; a non-not-found fetch error aborts;
not-found synthesizes the service and attempts its creation. -/
def phaseService (cl : ClusterResource) (f : Faults) (s : Store) : Outcome :=
  match getService f s with
  | .errOther e => { store := s, calls := [], err := some e }
  | .found _ => { store := s, calls := [], err := none }
  | .notFound =>
    let svc := headlessService cl
    match f.createServiceErr with
    | some e => { store := s, calls := [Call.createService svc], err := some e }
    | none => { store := { s with service := some svc }, calls := [Call.createService svc], err := none }

/-- Lines 118-137: fetch the base ConfigMap; a non-not-found fetch error aborts;
not-found synthesizes the ConfigMap and attempts its creation. -/
def phaseConfigMap (d : EngineConfig) (cl : ClusterResource) (f : Faults) (s : Store) : Outcome :=
  match getConfigMap f s with
  | .errOther e => { store := s, calls := [], err := some e }
  | .found _ => { store := s, calls := [], err := none }
  | .notFound =>
    let cm := bootstrapConfigMap d cl
    match f.createConfigMapErr with
    | some e => { store := s, calls := [Call.createConfigMap cm], err := some e }
    | none => { store := { s with configMap := some cm }, calls := [Call.createConfigMap cm], err := none }

/-- Lines 139-157: fetch the StatefulSet; a non-not-found fetch error aborts;
not-found synthesizes the StatefulSet (replica seed 1) and attempts its creation.
Returns, besides the outcome, the local `sts` variable the rest of the invocation
reads: the fetched object when found, the untouched zero value otherwise (the
creation never refreshes it). -/
def phaseStatefulSet (cl : ClusterResource) (f : Faults) (s : Store) : Outcome × StsLocal :=
  match getStatefulSet f s with
  | .errOther e => ({ store := s, calls := [], err := some e }, zeroStsLocal)
  | .found st =>
    ({ store := s, calls := [], err := none },
     { name := st.sts.name, ns := st.sts.ns, specReplicas := st.sts.replicas,
       readyReplicas := st.readyReplicas })
  | .notFound =>
    let sts := createBootstrapStatefulSet cl (cl.name ++ baseSuffix)
    match f.createStsErr with
    | some e => ({ store := s, calls := [Call.createStatefulSet sts], err := some e }, zeroStsLocal)
    | none =>
      ({ store := { s with statefulSet := some { sts := sts, readyReplicas := 0 } },
         calls := [Call.createStatefulSet sts], err := none }, zeroStsLocal)

/-- Lines 159-166: if the local StatefulSet's replicas pointer differs from the
cluster's (Go pointer comparison, `goPtrNe`), assign the cluster's pointer and
issue an update of the local object; an update failure aborts.  The control plane
applies the update only to a stored StatefulSet bearing the target's name and
namespace, and rejects it otherwise (in particular when the target name is the
zero value's empty string). -/
def phaseReplicas (cl : ClusterResource) (f : Faults) (s : Store) (loc : StsLocal) : Outcome :=
  if goPtrNe loc.specReplicas cl.replicas then
    let call := Call.updateStatefulSet loc.name loc.ns cl.replicas
    match f.updateStsErr with
    | some e => { store := s, calls := [call], err := some e }
    | none =>
      match s.statefulSet with
      | some st =>
        if st.sts.name = loc.name ∧ st.sts.ns = loc.ns then
          { store := { s with statefulSet := some { st with sts := { st.sts with replicas := cl.replicas } } },
            calls := [call], err := none }
        else { store := s, calls := [call], err := some updateTargetMissing }
      | none => { store := s, calls := [call], err := some updateTargetMissing }
  else { store := s, calls := [], err := none }

/-- Lines 168-184: list the pods matching the cluster's labels in its namespace
and project their names, in order. -/
def listObservedNodes (f : Faults) (s : Store) : Except String (List String) :=
  match f.listPodsErr with
  | some e => .error e
  | none => .ok s.pods

/-- Lines 186-193: if the observed name sequence is not `reflect.DeepEqual` to the
recorded status node list (a non-nil observed slice never equals a nil recorded
one), overwrite the status node list and persist it with its own status-update
call; a failure aborts.  Returns the in-memory cluster object as well. -/
def phaseStatusNodes (cl : ClusterResource) (f : Faults) (s : Store)
    (observed : List String) : Outcome × ClusterResource :=
  if cl.statusNodes = some observed then
    ({ store := s, calls := [], err := none }, cl)
  else
    let cl' := { cl with statusNodes := some observed }
    let call := Call.updateStatus cl'.statusNodes cl'.statusReplicas
    match f.statusNodesErr with
    | some e => ({ store := s, calls := [call], err := some e }, cl')
    | none =>
      ({ store := { s with cluster := some cl' }, calls := [call], err := none }, cl')

/-- Lines 195-202: if the StatefulSet's ready-replica count differs from the
recorded status count, overwrite it and persist it with its own, separate
status-update call; a failure aborts. -/
def phaseStatusReplicas (cl : ClusterResource) (f : Faults) (s : Store)
    (loc : StsLocal) : Outcome :=
  if loc.readyReplicas = cl.statusReplicas then
    { store := s, calls := [], err := none }
  else
    let cl' := { cl with statusReplicas := loc.readyReplicas }
    let call := Call.updateStatus cl'.statusNodes cl'.statusReplicas
    match f.statusReplicasErr with
    | some e => { store := s, calls := [call], err := some e }
    | none => { store := { s with cluster := some cl' }, calls := [call], err := none }

/-- Translation of `Reconcile` (lines 81-205): one invocation of the
reconciliation loop, as the strictly sequential composition of the phases above,
threading the store, concatenating the attempted calls, and aborting on the
first error.  `d` stands for the compiled-in engine defaults (`config.Default()`)
consumed by the ConfigMap synthesizer. -/
def reconcile (d : EngineConfig) (f : Faults) (s0 : Store) : Outcome :=
  match getCluster f s0 with
  | .errOther e => { store := s0, calls := [], err := some e }
  | .notFound => { store := s0, calls := [], err := none }
  | .found cl =>
    let p1 := phaseService cl f s0
    match p1.err with
    | some e => { store := p1.store, calls := p1.calls, err := some e }
    | none =>
      let p2 := phaseConfigMap d cl f p1.store
      match p2.err with
      | some e => { store := p2.store, calls := p1.calls ++ p2.calls, err := some e }
      | none =>
        let p3 := phaseStatefulSet cl f p2.store
        let calls3 := p1.calls ++ p2.calls ++ p3.1.calls
        match p3.1.err with
        | some e => { store := p3.1.store, calls := calls3, err := some e }
        | none =>
          let p4 := phaseReplicas cl f p3.1.store p3.2
          let calls4 := calls3 ++ p4.calls
          match p4.err with
          | some e => { store := p4.store, calls := calls4, err := some e }
          | none =>
            match listObservedNodes f p4.store with
            | .error e => { store := p4.store, calls := calls4, err := some e }
            | .ok observed =>
              let p5 := phaseStatusNodes cl f p4.store observed
              let calls5 := calls4 ++ p5.1.calls
              match p5.1.err with
              | some e => { store := p5.1.store, calls := calls5, err := some e }
              | none =>
                let p6 := phaseStatusReplicas p5.2 f p5.1.store p3.2
                { store := p6.store, calls := calls5 ++ p6.calls, err := p6.err }

/-- Sample compiled-in engine defaults (the `config.Default()` values live in the
rpk package outside this repository; concrete sample values are used only to
instantiate closed statements, never inside the translated definitions). -/
def sampleDefaults : EngineConfig :=
  { id := 0, directory := "", rpcServer := { address := "127.0.0.1", port := 33145 },
    advertisedRpcApi := { address := "", port := 0 },
    kafkaApi := { address := "127.0.0.1", port := 9092 },
    advertisedKafkaApi := { address := "", port := 0 },
    adminApi := { address := "127.0.0.1", port := 9644 },
    seedServers := [], developerMode := false }

/-- Sample defaults whose kafka default differs from 9092 and 0. -/
def altDefaults : EngineConfig :=
  { sampleDefaults with kafkaApi := { address := "127.0.0.1", port := 9093 } }

/-- Sample cluster spec configuration with every port unspecified. -/
def sampleConfig : RedpandaSpecConfig :=
  { rpcServer := { port := 0 }, kafkaApi := { port := 0 }, adminApi := { port := 0 },
    developerMode := true }

/-- Sample cluster resource with desired replica count 3. -/
def sampleCluster : ClusterResource :=
  { name := "cluster-a", ns := "default", labels := [("app", "cluster-a")],
    replicas := some 3, image := "vectorized/redpanda", version := "latest",
    configuration := sampleConfig, resourceLimits := [], resourceRequests := [],
    statusNodes := none, statusReplicas := 0 }

/-- Store in which only the cluster resource exists: first reconcile of a fresh
cluster. -/
def storeAllAbsent : Store :=
  { cluster := some sampleCluster, service := none, configMap := none,
    statefulSet := none, pods := [] }

/-- Store in which every child resource exists and every convergence condition
already holds by value: the StatefulSet's declared replica count equals the
cluster's desired count, the recorded status matches the (empty) pod list, and
the recorded ready count matches the StatefulSet's. -/
def storeConverged : Store :=
  { cluster := some { sampleCluster with statusNodes := some [] },
    service := some (headlessService sampleCluster),
    configMap := some (bootstrapConfigMap sampleDefaults sampleCluster),
    statefulSet := some
      { sts := { createBootstrapStatefulSet sampleCluster "cluster-a-base" with replicas := some 3 },
        readyReplicas := 0 },
    pods := [] }

/-- Sample cluster whose recorded status node list is `[cluster-a-0]`. -/
def clusterRecordedOne : ClusterResource :=
  { sampleCluster with statusNodes := some ["cluster-a-0"] }

/-- Sample cluster whose recorded status node list is the three observed pods. -/
def clusterRecordedThree : ClusterResource :=
  { sampleCluster with statusNodes := some ["cluster-a-0", "cluster-a-1", "cluster-a-2"] }

/-- Sample local StatefulSet view with declared replicas 3 and ready replicas 3. -/
def stsLocThree : StsLocal :=
  { name := "cluster-a", ns := "default", specReplicas := some 3, readyReplicas := 3 }

/-- C9: for every cluster spec, the synthesized StatefulSet's per-pod persistent
volume claim requests exactly `100Gi` of storage, whatever the spec's own
requests and limits declare. -/
theorem pvc_storage_request_fixed (cl : ClusterResource) (cmName : String) :
    (createBootstrapStatefulSet cl cmName).pvcStorageRequest = "100Gi" := rfl

/-- C10: the main container's memory flag is derived from the `memory` resource
limit, defaulting to `2Gi` when absent, and its value is the limit's string form
with every `Gi` replaced by `G`; in particular an absent limit yields
`--memory 2G`. -/
theorem memory_flag_derivation (cl : ClusterResource) (cmName : String) :
    (createBootstrapStatefulSet cl cmName).containerArgs = redpandaArgs cl.resourceLimits ∧
    (cl.resourceLimits.lookup "memory" = none →
      (redpandaArgs cl.resourceLimits).get? 2 = some "--memory 2G") ∧
    (∀ q, cl.resourceLimits.lookup "memory" = some q →
      (redpandaArgs cl.resourceLimits).get? 2 = some ("--memory " ++ goReplaceAll q "Gi" "G")) := by
  refine ⟨rfl, ?_, ?_⟩
  · intro h
    simp [redpandaArgs, memoryLimitString, h]
    decide
  · intro q h
    simp [redpandaArgs, memoryLimitString, h]

/-- C10 witness: a cluster without a memory limit yields `--memory 2G`; a cluster
with a `4Gi` memory limit yields `--memory 4G`. -/
theorem memory_flag_derivation_witness :
    (redpandaArgs sampleCluster.resourceLimits).get? 2 = some "--memory 2G" ∧
    (redpandaArgs [("memory", "4Gi")]).get? 2 = some "--memory 4G" := by
  constructor
  · exact (memory_flag_derivation sampleCluster "cluster-a-base").2.1 rfl
  · have h := (memory_flag_derivation
      { sampleCluster with resourceLimits := [("memory", "4Gi")] } "cluster-a-base").2.2 "4Gi" rfl
    have hr : "--memory " ++ goReplaceAll "4Gi" "Gi" "G" = "--memory 4G" := by decide
    rw [hr] at h
    exact h

/-- C6: each of the RPC, kafka, and admin ports that the cluster spec leaves at
zero is replaced by the compiled-in default for that port role, independently of
the other ports (the synthesized port is a function of that role's spec port and
default alone); in particular, a spec with kafka port unset and RPC port 9092
yields a kafka listen port equal to the compiled-in kafka default, which is
neither zero nor 9092 whenever the compiled-in default is neither. -/
theorem copyConfig_port_fallback (c : RedpandaSpecConfig) (d : EngineConfig) :
    ((copyConfig c d).rpcServer.port =
       if c.rpcServer.port = 0 then d.rpcServer.port else c.rpcServer.port) ∧
    ((copyConfig c d).kafkaApi.port =
       if c.kafkaApi.port = 0 then d.kafkaApi.port else c.kafkaApi.port) ∧
    ((copyConfig c d).adminApi.port =
       if c.adminApi.port = 0 then d.adminApi.port else c.adminApi.port) ∧
    (c.kafkaApi.port = 0 → c.rpcServer.port = 9092 →
      d.kafkaApi.port ≠ 0 → d.kafkaApi.port ≠ 9092 →
      (copyConfig c d).kafkaApi.port = d.kafkaApi.port ∧
      (copyConfig c d).kafkaApi.port ≠ 0 ∧ (copyConfig c d).kafkaApi.port ≠ 9092) := by
  refine ⟨rfl, rfl, rfl, ?_⟩
  intro hk _hr hd0 hd9
  simp [copyConfig, hk]
  exact ⟨hd0, hd9⟩

/-- C6 witness: with kafka port unset, RPC port 9092, and sample defaults whose
kafka default is 9093, the generated kafka listen port is 9093, neither zero nor
9092. -/
theorem copyConfig_port_fallback_witness :
    (copyConfig { sampleConfig with rpcServer := { port := 9092 } } altDefaults).kafkaApi.port
        = altDefaults.kafkaApi.port ∧
    (copyConfig { sampleConfig with rpcServer := { port := 9092 } } altDefaults).kafkaApi.port ≠ 0 ∧
    (copyConfig { sampleConfig with rpcServer := { port := 9092 } } altDefaults).kafkaApi.port ≠ 9092 :=
  (copyConfig_port_fallback { sampleConfig with rpcServer := { port := 9092 } } altDefaults).2.2.2
    rfl rfl (by decide) (by decide)

/-- C7: running the generated startup script for a pod hostname whose trailing
dash-separated component is the ordinal string succeeds, sets the node's numeric
identity to the parsed ordinal, clears the seed-server list exactly when that
component is `"0"`, and otherwise leaves the originally generated single-entry
seed-server list — pointing at ordinal 0's fully-qualified domain name and the
RPC port — unchanged. -/
theorem configurator_script_ordinal_semantics (d : EngineConfig) (cl : ClusterResource)
    (hostname : String) (n : Nat)
    (hn : parseNat? (lastDashSuffix hostname) = some n) :
    ∃ out, scriptEffect (bootstrapConfigMap d cl) hostname = some out ∧
      out.id = (n : Int) ∧
      (lastDashSuffix hostname = "0" → out.seedServers = []) ∧
      (lastDashSuffix hostname ≠ "0" →
        out.seedServers = (bootstrapConfigMap d cl).cfg.seedServers ∧
        (bootstrapConfigMap d cl).cfg.seedServers =
          [ { host := { address := cl.name ++ "-0." ++ serviceAddress cl,
                        port := (bootstrapConfigMap d cl).cfg.rpcServer.port } } ]) := by
  by_cases h0 : lastDashSuffix hostname = "0"
  · refine ⟨{ (bootstrapConfigMap d cl).cfg with
        id := (n : Int)
        seedServers := []
        advertisedRpcApi :=
          { address := hostname ++ "." ++ (bootstrapConfigMap d cl).scriptServiceAddress,
            port := (bootstrapConfigMap d cl).scriptAdvertisedRpcPort }
        advertisedKafkaApi :=
          { address := hostname ++ "." ++ (bootstrapConfigMap d cl).scriptServiceAddress,
            port := (bootstrapConfigMap d cl).scriptAdvertisedKafkaPort } },
      ?_, rfl, fun _ => rfl, fun hne => absurd h0 hne⟩
    rw [h0] at hn
    simp [scriptEffect, hn, h0]
  · refine ⟨{ (bootstrapConfigMap d cl).cfg with
        id := (n : Int)
        advertisedRpcApi :=
          { address := hostname ++ "." ++ (bootstrapConfigMap d cl).scriptServiceAddress,
            port := (bootstrapConfigMap d cl).scriptAdvertisedRpcPort }
        advertisedKafkaApi :=
          { address := hostname ++ "." ++ (bootstrapConfigMap d cl).scriptServiceAddress,
            port := (bootstrapConfigMap d cl).scriptAdvertisedKafkaPort } },
      ?_, rfl, fun h => absurd h h0, fun _ => ⟨rfl, rfl⟩⟩
    simp [scriptEffect, hn, h0]

/-- C7 witness: for the concrete sample cluster, ordinal 0's pod hostname clears
the seed list and gets node id 0, while ordinal 2's pod keeps the original
single-entry seed list and gets node id 2. -/
theorem configurator_script_ordinal_semantics_witness :
    (∃ out, scriptEffect (bootstrapConfigMap sampleDefaults sampleCluster) "cluster-a-0" = some out ∧
      out.id = ((0 : Nat) : Int) ∧
      (lastDashSuffix "cluster-a-0" = "0" → out.seedServers = []) ∧
      (lastDashSuffix "cluster-a-0" ≠ "0" →
        out.seedServers = (bootstrapConfigMap sampleDefaults sampleCluster).cfg.seedServers ∧
        (bootstrapConfigMap sampleDefaults sampleCluster).cfg.seedServers =
          [ { host := { address := sampleCluster.name ++ "-0." ++ serviceAddress sampleCluster,
                        port := (bootstrapConfigMap sampleDefaults sampleCluster).cfg.rpcServer.port } } ])) ∧
    (∃ out, scriptEffect (bootstrapConfigMap sampleDefaults sampleCluster) "cluster-a-2" = some out ∧
      out.id = ((2 : Nat) : Int) ∧
      (lastDashSuffix "cluster-a-2" = "0" → out.seedServers = []) ∧
      (lastDashSuffix "cluster-a-2" ≠ "0" →
        out.seedServers = (bootstrapConfigMap sampleDefaults sampleCluster).cfg.seedServers ∧
        (bootstrapConfigMap sampleDefaults sampleCluster).cfg.seedServers =
          [ { host := { address := sampleCluster.name ++ "-0." ++ serviceAddress sampleCluster,
                        port := (bootstrapConfigMap sampleDefaults sampleCluster).cfg.rpcServer.port } } ])) :=
  ⟨configurator_script_ordinal_semantics sampleDefaults sampleCluster "cluster-a-0" 0 (by decide),
   configurator_script_ordinal_semantics sampleDefaults sampleCluster "cluster-a-2" 2 (by decide)⟩

/-- C4: if fetching the cluster resource fails with not-found, the invocation
terminates successfully; if it fails with any other error, the invocation
terminates returning exactly that error; in both cases no create, update, or
status-write call is performed and the control plane is untouched. -/
theorem cluster_fetch_error_handling (d : EngineConfig) (f : Faults) (s : Store) :
    (f.getClusterErr = none → s.cluster = none →
      reconcile d f s = { store := s, calls := [], err := none }) ∧
    (∀ e, f.getClusterErr = some e →
      reconcile d f s = { store := s, calls := [], err := some e }) := by
  constructor
  · intro h1 h2
    simp [reconcile, getCluster, h1, h2]
  · intro e he
    simp [reconcile, getCluster, he]

/-- C4 witness: a store without the cluster resource reconciles to success with
no calls, and an injected fetch error is returned verbatim with no calls. -/
theorem cluster_fetch_error_handling_witness :
    (reconcile sampleDefaults noFaults { storeAllAbsent with cluster := none } =
      { store := { storeAllAbsent with cluster := none }, calls := [], err := none }) ∧
    (reconcile sampleDefaults { noFaults with getClusterErr := some "server unavailable" } storeAllAbsent =
      { store := storeAllAbsent, calls := [], err := some "server unavailable" }) :=
  ⟨(cluster_fetch_error_handling sampleDefaults noFaults
      { storeAllAbsent with cluster := none }).1 rfl rfl,
   (cluster_fetch_error_handling sampleDefaults
      { noFaults with getClusterErr := some "server unavailable" } storeAllAbsent).2
      "server unavailable" rfl⟩

/-- C5: for each child resource (headless service, bootstrap ConfigMap,
StatefulSet), a not-found fetch leads to synthesizing and creating exactly that
resource — the invocation's error, if any, is the creation's, never the
not-found — while a non-not-found fetch error aborts the invocation, is
propagated unmodified, and prevents any creation of that or of any later
resource. -/
theorem child_fetch_error_handling (d : EngineConfig) (cl : ClusterResource)
    (f : Faults) (s : Store) :
    (∀ e, f.getServiceErr = some e →
      phaseService cl f s = { store := s, calls := [], err := some e }) ∧
    (f.getServiceErr = none → s.service = none →
      (phaseService cl f s).calls = [Call.createService (headlessService cl)] ∧
      (phaseService cl f s).err = f.createServiceErr) ∧
    (∀ e, f.getConfigMapErr = some e →
      phaseConfigMap d cl f s = { store := s, calls := [], err := some e }) ∧
    (f.getConfigMapErr = none → s.configMap = none →
      (phaseConfigMap d cl f s).calls = [Call.createConfigMap (bootstrapConfigMap d cl)] ∧
      (phaseConfigMap d cl f s).err = f.createConfigMapErr) ∧
    (∀ e, f.getStsErr = some e →
      (phaseStatefulSet cl f s).1 = { store := s, calls := [], err := some e }) ∧
    (f.getStsErr = none → s.statefulSet = none →
      (phaseStatefulSet cl f s).1.calls =
        [Call.createStatefulSet (createBootstrapStatefulSet cl (cl.name ++ baseSuffix))] ∧
      (phaseStatefulSet cl f s).1.err = f.createStsErr) ∧
    (∀ e, s.cluster = some cl → f.getClusterErr = none → f.getServiceErr = some e →
      reconcile d f s = { store := s, calls := [], err := some e }) ∧
    (∀ e, s.cluster = some cl → f.getClusterErr = none → f.getServiceErr = none →
      f.createServiceErr = none → f.getConfigMapErr = some e →
      (reconcile d f s).err = some e ∧
      (reconcile d f s).calls = (phaseService cl f s).calls) ∧
    (∀ e, s.cluster = some cl → f.getClusterErr = none → f.getServiceErr = none →
      f.createServiceErr = none → f.getConfigMapErr = none → f.createConfigMapErr = none →
      f.getStsErr = some e →
      (reconcile d f s).err = some e ∧
      (reconcile d f s).calls =
        (phaseService cl f s).calls ++
          (phaseConfigMap d cl f (phaseService cl f s).store).calls) := by
  refine ⟨?_, ?_, ?_, ?_, ?_, ?_, ?_, ?_, ?_⟩
  · intro e he
    simp [phaseService, getService, he]
  · intro h1 h2
    cases hce : f.createServiceErr <;> simp [phaseService, getService, h1, h2, hce]
  · intro e he
    simp [phaseConfigMap, getConfigMap, he]
  · intro h1 h2
    cases hce : f.createConfigMapErr <;> simp [phaseConfigMap, getConfigMap, h1, h2, hce]
  · intro e he
    simp [phaseStatefulSet, getStatefulSet, he]
  · intro h1 h2
    cases hce : f.createStsErr <;> simp [phaseStatefulSet, getStatefulSet, h1, h2, hce]
  · intro e hc hgc he
    simp [reconcile, getCluster, hc, hgc, phaseService, getService, he]
  · intro e hc hgc hs hcs he
    cases hsv : s.service <;>
      simp [reconcile, getCluster, hc, hgc, phaseService, getService, hs, hcs, hsv,
        phaseConfigMap, getConfigMap, he]
  · intro e hc hgc hs hcs hcm hccm he
    cases hsv : s.service <;> cases hcmv : s.configMap <;>
      simp [reconcile, getCluster, hc, hgc, phaseService, getService, hs, hcs, hsv,
        phaseConfigMap, getConfigMap, hcm, hccm, hcmv,
        phaseStatefulSet, getStatefulSet, he]

/-- C5 witness: concretely, an injected service fetch error aborts with no calls;
an absent ConfigMap is created by its own call with no error; an injected
StatefulSet fetch error is propagated while only the earlier creations appear in
the trace. -/
theorem child_fetch_error_handling_witness :
    (reconcile sampleDefaults { noFaults with getServiceErr := some "conflict" } storeAllAbsent =
      { store := storeAllAbsent, calls := [], err := some "conflict" }) ∧
    ((phaseConfigMap sampleDefaults sampleCluster noFaults storeAllAbsent).calls =
        [Call.createConfigMap (bootstrapConfigMap sampleDefaults sampleCluster)] ∧
      (phaseConfigMap sampleDefaults sampleCluster noFaults storeAllAbsent).err =
        noFaults.createConfigMapErr) ∧
    ((reconcile sampleDefaults { noFaults with getStsErr := some "timeout" } storeAllAbsent).err =
        some "timeout" ∧
      (reconcile sampleDefaults { noFaults with getStsErr := some "timeout" } storeAllAbsent).calls =
        (phaseService sampleCluster { noFaults with getStsErr := some "timeout" } storeAllAbsent).calls ++
          (phaseConfigMap sampleDefaults sampleCluster { noFaults with getStsErr := some "timeout" }
            (phaseService sampleCluster { noFaults with getStsErr := some "timeout" } storeAllAbsent).store).calls) :=
  ⟨(child_fetch_error_handling sampleDefaults sampleCluster
      { noFaults with getServiceErr := some "conflict" } storeAllAbsent).2.2.2.2.2.2.1
      "conflict" rfl rfl rfl,
   (child_fetch_error_handling sampleDefaults sampleCluster noFaults storeAllAbsent).2.2.2.1
      rfl rfl,
   (child_fetch_error_handling sampleDefaults sampleCluster
      { noFaults with getStsErr := some "timeout" } storeAllAbsent).2.2.2.2.2.2.2.2
      "timeout" rfl rfl rfl rfl rfl rfl rfl⟩

/-- C8: listing the pods yields their names in order; the status node list is
overwritten, by its own status-update call, exactly when the observed name
sequence differs from the recorded value (an unset, nil recorded list differs
from any observed list, as under `reflect.DeepEqual`), and the written value is
exactly the observed sequence in order; independently, the ready-replica count is
overwritten, by a separate status-update call, exactly when it differs from the
StatefulSet's ready-replica count. -/
theorem status_projection_convergence (cl : ClusterResource) (f : Faults) (s : Store)
    (observed : List String) (loc : StsLocal) :
    (f.listPodsErr = none → listObservedNodes f s = .ok s.pods) ∧
    (cl.statusNodes = some observed →
      phaseStatusNodes cl f s observed = ({ store := s, calls := [], err := none }, cl)) ∧
    (cl.statusNodes ≠ some observed → f.statusNodesErr = none →
      phaseStatusNodes cl f s observed =
        ({ store := { s with cluster := some { cl with statusNodes := some observed } },
           calls := [Call.updateStatus (some observed) cl.statusReplicas], err := none },
         { cl with statusNodes := some observed })) ∧
    (loc.readyReplicas = cl.statusReplicas →
      phaseStatusReplicas cl f s loc = { store := s, calls := [], err := none }) ∧
    (loc.readyReplicas ≠ cl.statusReplicas → f.statusReplicasErr = none →
      phaseStatusReplicas cl f s loc =
        { store := { s with cluster := some { cl with statusReplicas := loc.readyReplicas } },
          calls := [Call.updateStatus cl.statusNodes loc.readyReplicas], err := none }) := by
  refine ⟨?_, ?_, ?_, ?_, ?_⟩
  · intro h
    simp [listObservedNodes, h]
  · intro h
    simp [phaseStatusNodes, h]
  · intro h hf
    simp [phaseStatusNodes, h, hf]
  · intro h
    simp [phaseStatusReplicas, h]
  · intro h hf
    simp [phaseStatusReplicas, h, hf]

/-- C8 witness: with three live pods `cluster-a-0`, `cluster-a-1`, `cluster-a-2`
and a prior recorded list `[cluster-a-0]`, the node-list write is issued with
exactly the observed sequence in order; and with ready count 3 against recorded
0, the ready-replica write is issued as its own separate call. -/
theorem status_projection_convergence_witness :
    (phaseStatusNodes clusterRecordedOne noFaults
        storeConverged ["cluster-a-0", "cluster-a-1", "cluster-a-2"] =
      ({ store := { storeConverged with cluster := some clusterRecordedThree },
         calls := [Call.updateStatus (some ["cluster-a-0", "cluster-a-1", "cluster-a-2"]) 0],
         err := none },
       clusterRecordedThree)) ∧
    (phaseStatusReplicas sampleCluster noFaults storeConverged stsLocThree =
      { store := { storeConverged with cluster := some { sampleCluster with statusReplicas := 3 } },
        calls := [Call.updateStatus sampleCluster.statusNodes 3],
        err := none }) :=
  ⟨(status_projection_convergence clusterRecordedOne
      noFaults storeConverged ["cluster-a-0", "cluster-a-1", "cluster-a-2"] stsLocThree).2.2.1
      (by decide) rfl,
   (status_projection_convergence sampleCluster noFaults storeConverged
      ["cluster-a-0", "cluster-a-1", "cluster-a-2"] stsLocThree).2.2.2.2
      (by decide) rfl⟩

/-- C1: evaluation at the failing input.  On a fully converged store the first
invocation completes successfully with no external change, yet the second
invocation still issues a StatefulSet update call: line 160 compares the two
freshly decoded `*int32` replica pointers by address, so the guard is true on
every invocation in which either pointer is non-nil, and the loop is not
idempotent. -/
theorem reconcile_second_invocation_reissues_update :
    (reconcile sampleDefaults noFaults storeConverged).err = none ∧
    (reconcile sampleDefaults noFaults
        (reconcile sampleDefaults noFaults storeConverged).store).calls =
      [Call.updateStatefulSet "cluster-a" "default" (some 3)] := by
  constructor <;> rfl

/-- C2: evaluation at the failing input.  The stored StatefulSet's declared
replica count and the cluster's desired count are both 3, yet the invocation
issues a StatefulSet update call: the guard at line 160 is Go pointer
inequality, not value inequality, so an update is issued even when the counts
agree, refuting the only-if direction of the claim. -/
theorem replica_update_issued_when_counts_equal :
    storeConverged.statefulSet.map (fun st => st.sts.replicas) = some (some 3) ∧
    storeConverged.cluster.map ClusterResource.replicas = some (some 3) ∧
    (reconcile sampleDefaults noFaults storeConverged).calls =
      [Call.updateStatefulSet "cluster-a" "default" (some 3)] ∧
    (reconcile sampleDefaults noFaults storeConverged).err = none := by
  refine ⟨rfl, rfl, rfl, rfl⟩

/-- C3: evaluation at the failing input.  With every child resource absent and
desired replica count 3, one invocation creates the headless service, the
bootstrap ConfigMap, and the StatefulSet with replica count 1, in that order —
but then still runs the replica-convergence step: the zero-valued local
StatefulSet's nil replicas pointer differs (as a Go pointer) from the cluster's,
so an update targeting the zero value's empty name is attempted and fails,
aborting the invocation with an error instead of deferring convergence to the
next invocation. -/
theorem creation_invocation_attempts_replica_update :
    (reconcile sampleDefaults noFaults storeAllAbsent).calls =
      [Call.createService (headlessService sampleCluster),
       Call.createConfigMap (bootstrapConfigMap sampleDefaults sampleCluster),
       Call.createStatefulSet (createBootstrapStatefulSet sampleCluster ("cluster-a" ++ baseSuffix)),
       Call.updateStatefulSet "" "" (some 3)] ∧
    (createBootstrapStatefulSet sampleCluster ("cluster-a" ++ baseSuffix)).replicas = some 1 ∧
    (reconcile sampleDefaults noFaults storeAllAbsent).err = some updateTargetMissing := by
  refine ⟨rfl, rfl, rfl⟩

end RedpandaOperator
